import Mathlib

/-!
Verification of the `patchclamp` packaging manifest (`setup.py`).

The repository consists of a single Python file, `setup.py`, whose top-level
statements are two `from setuptools import ...` statements and one call to
`setup(...)` carrying package metadata and a dependency list.  We shallowly
embed the relevant fragment of Python (string, name and list expressions,
calls with positional and keyword arguments, and the statement forms the
claims quantify over: imports, expression statements, assignments, function,
async-function and class definitions, `raise`, `try/except`, `if`, `while`
and `for`) and write the module as a concrete term of that embedding.  All
claims are then decided by evaluating checks on that term.
-/

namespace PatchClamp

/-- A Python expression, restricted to the forms relevant to the manifest:
string literals, bare name references, list literals, and calls written as
`f(positional..., key=value, ...)`. -/
inductive PyExpr : Type where
  | strLit : String → PyExpr
  | nameRef : String → PyExpr
  | listLit : List PyExpr → PyExpr
  | call : String → List PyExpr → List (String × PyExpr) → PyExpr

/-- A top-level Python statement.  The constructors cover the statement
forms that actually occur in `setup.py` (`importFrom`, `exprStmt`) together
with every statement form the specification asserts to be absent
(definitions, assignments, raising, exception handling, branching and
loops), so that absence is a non-trivial check on the module term. -/
inductive PyStmt : Type where
  | importFrom : String → String → PyStmt
  | exprStmt : PyExpr → PyStmt
  | assign : String → PyExpr → PyStmt
  | funcDef : String → List PyStmt → PyStmt
  | asyncFuncDef : String → List PyStmt → PyStmt
  | classDef : String → List String → List PyStmt → PyStmt
  | raiseStmt : PyExpr → PyStmt
  | tryExcept : List PyStmt → List PyStmt → PyStmt
  | ifStmt : PyExpr → List PyStmt → List PyStmt → PyStmt
  | whileStmt : PyExpr → List PyStmt → PyStmt
  | forStmt : String → PyExpr → List PyStmt → PyStmt

/-- The `setup(...)` call of `src/setup.py`, lines 4-17, embedded verbatim:
no positional arguments and the five keyword arguments `name`, `version`,
`author`, `packages` and `install_requires`, in source order. -/
def setup_call : PyExpr :=
  .call "setup" []
    [ ("name", .strLit "patchclamp"),
      ("version", .strLit "0.1"),
      ("author", .strLit "Eamon Byrne"),
      ("packages", .call "find_packages" [] []),
      ("install_requires", .listLit
        [ .strLit "numpy",
          .strLit "pandas",
          .strLit "scipy",
          .strLit "pyabf",
          .strLit "glob",
          .strLit "seaborn",
          .strLit "matplotlib" ]) ]

/-- The whole module `src/setup.py`: two imports from `setuptools` followed
by the single `setup(...)` expression statement. -/
def setup_module : List PyStmt :=
  [ .importFrom "setuptools" "find_packages",
    .importFrom "setuptools" "setup",
    .exprStmt setup_call ]

/-- The keyword arguments of a call expression (empty for non-calls). -/
def callKwargs : PyExpr → List (String × PyExpr)
  | .call _ _ kws => kws
  | _ => []

/-- The keyword-argument names of a call, in source order. -/
def kwargNames (e : PyExpr) : List String :=
  (callKwargs e).map Prod.fst

/-- The value bound to keyword `k` in a call, if present. -/
def getKwarg (e : PyExpr) (k : String) : Option PyExpr :=
  ((callKwargs e).find? (fun p => p.fst = k)).map Prod.snd

/-- The string carried by a string-literal expression. -/
def PyExpr.strVal : PyExpr → Option String
  | .strLit s => some s
  | _ => none

/-- The strings of a list literal made entirely of string literals. -/
def listStrs : PyExpr → Option (List String)
  | .listLit es => es.mapM PyExpr.strVal
  | _ => none

/-- The `install_requires` dependency list of the manifest, as the list of
its string entries. -/
def install_requires : Option (List String) :=
  (getKwarg setup_call "install_requires").bind listStrs

mutual

/-- `stmtDeepAny p s` holds when `p` holds of statement `s` itself or of any
statement nested inside one of its bodies (function, class, handler, branch
or loop bodies). -/
def stmtDeepAny (p : PyStmt → Bool) : PyStmt → Bool
  | s@(.funcDef _ b) => p s || stmtsDeepAny p b
  | s@(.asyncFuncDef _ b) => p s || stmtsDeepAny p b
  | s@(.classDef _ _ b) => p s || stmtsDeepAny p b
  | s@(.tryExcept b h) => p s || stmtsDeepAny p b || stmtsDeepAny p h
  | s@(.ifStmt _ t e) => p s || stmtsDeepAny p t || stmtsDeepAny p e
  | s@(.whileStmt _ b) => p s || stmtsDeepAny p b
  | s@(.forStmt _ _ b) => p s || stmtsDeepAny p b
  | s => p s

/-- `stmtsDeepAny p ss` holds when `p` holds somewhere in the block `ss`,
at any nesting depth. -/
def stmtsDeepAny (p : PyStmt → Bool) : List PyStmt → Bool
  | [] => false
  | s :: rest => stmtDeepAny p s || stmtsDeepAny p rest

end

/-- Is the statement a (plain or async) function definition? -/
def isFuncDef : PyStmt → Bool
  | .funcDef _ _ => true
  | .asyncFuncDef _ _ => true
  | _ => false

/-- Is the statement an async function (coroutine) definition? -/
def isAsyncDef : PyStmt → Bool
  | .asyncFuncDef _ _ => true
  | _ => false

/-- Is the statement a class definition? -/
def isClassDef : PyStmt → Bool
  | .classDef _ _ _ => true
  | _ => false

/-- Is the statement an assignment (mutable global state when at the top
level of a module)? -/
def isAssign : PyStmt → Bool
  | .assign _ _ => true
  | _ => false

/-- Is the statement a `raise`? -/
def isRaise : PyStmt → Bool
  | .raiseStmt _ => true
  | _ => false

/-- Is the statement a `try`/`except` handler? -/
def isTryExcept : PyStmt → Bool
  | .tryExcept _ _ => true
  | _ => false

/-- Is the statement a conditional branch or a loop (`if`, `while`, `for`)? -/
def isBranchOrLoop : PyStmt → Bool
  | .ifStmt _ _ _ => true
  | .whileStmt _ _ => true
  | .forStmt _ _ _ => true
  | _ => false

/-- Is the statement an import? -/
def isImport : PyStmt → Bool
  | .importFrom _ _ => true
  | _ => false

/-- Is the statement an expression statement whose expression is a call to
the named function? -/
def isCallStmtTo (f : String) : PyStmt → Bool
  | .exprStmt (.call g _ _) => g = f
  | _ => false

/-- Characters that begin a PEP 508 version specifier or extras marker
(`==`, `>=`, `<=`, `<`, `>`, `~=`, `!=`, `[extras]`); a bare distribution
name contains none of them. -/
def specifierChars : List Char :=
  ['=', '<', '>', '~', '!', '[', ']', '(', ')', ',', ';', ' ']

/-- A requirement string is a bare distribution name: it is nonempty and
contains no version-specifier or extras-marker character. -/
def isBareName (s : String) : Bool :=
  !s.isEmpty && s.toList.all (fun c => !specifierChars.contains c)

/-- C1: the claim states that `install_requires` declares exactly six
runtime dependencies and no other entries; on the code this fails: the
list has seven entries, the fifth being the string `glob`, the name of a
Python standard-library module and not an installable distribution.  This
theorem evaluates the manifest at that point. -/
theorem C1_install_requires_has_seventh_entry_glob :
    (install_requires.getD []).contains "glob" = true
    ∧ (install_requires.getD []).length = 7
    ∧ install_requires.isSome = true := by
  decide

/-- C2: the `setup()` call declares the distribution name to be exactly
the string `patchclamp` and the version to be exactly the string `0.1`. -/
theorem C2_name_patchclamp_version_0_1 :
    (getKwarg setup_call "name").bind PyExpr.strVal = some "patchclamp"
    ∧ (getKwarg setup_call "version").bind PyExpr.strVal = some "0.1" := by
  decide

/-- C3: the module contains zero lines of implementation: no function or
class definition at any depth, and its top level is exactly two imports
and a single `setup()` call. -/
theorem C3_no_implementation :
    stmtsDeepAny isFuncDef setup_module = false
    ∧ stmtsDeepAny isClassDef setup_module = false
    ∧ (setup_module.filter isImport).length = 2
    ∧ (setup_module.filter (isCallStmtTo "setup")).length = 1
    ∧ setup_module.length = 3
    ∧ setup_module.all (fun s => isImport s || isCallStmtTo "setup" s) = true := by
  decide

/-- C4: no command-line interface is defined: the `setup()` call passes no
`entry_points`, `scripts` or `console_scripts` keyword, and the module
defines no function anywhere that could implement a CLI, file format or
wire protocol. -/
theorem C4_no_cli :
    (kwargNames setup_call).contains "entry_points" = false
    ∧ (kwargNames setup_call).contains "scripts" = false
    ∧ (kwargNames setup_call).contains "console_scripts" = false
    ∧ stmtsDeepAny isFuncDef setup_module = false := by
  decide

/-- C5: the keyword arguments of the `setup()` call are exactly
`name`, `version`, `author`, `packages` and `install_requires`, in that
order, and the declared author is the string `Eamon Byrne`. -/
theorem C5_exact_kwargs_and_author :
    kwargNames setup_call = ["name", "version", "author", "packages", "install_requires"]
    ∧ (getKwarg setup_call "author").bind PyExpr.strVal = some "Eamon Byrne" := by
  decide

/-- C6: no operations exist that could fail, retry, or surface errors: the
module contains no `raise` statement, no `try`/`except` handler, and no
conditional branch or loop, at any nesting depth. -/
theorem C6_no_error_paths :
    stmtsDeepAny isRaise setup_module = false
    ∧ stmtsDeepAny isTryExcept setup_module = false
    ∧ stmtsDeepAny isBranchOrLoop setup_module = false := by
  decide

/-- C7: no source patterns requiring re-architecture appear: the module
contains no class definition (hence no inheritance), no assignment to a
global, and no coroutine (async) definition, at any nesting depth. -/
theorem C7_no_rearchitecture_patterns :
    stmtsDeepAny isClassDef setup_module = false
    ∧ stmtsDeepAny isAssign setup_module = false
    ∧ stmtsDeepAny isAsyncDef setup_module = false := by
  decide

/-- C8: the `install_requires` list has exactly seven entries, in the fixed
order `numpy`, `pandas`, `scipy`, `pyabf`, `glob`, `seaborn`,
`matplotlib` — including the literal entry `glob`. -/
theorem C8_install_requires_entries :
    install_requires =
      some ["numpy", "pandas", "scipy", "pyabf", "glob", "seaborn", "matplotlib"] := by
  decide

/-- C9: no dependency carries a version constraint: every entry of
`install_requires` is a bare distribution name containing no
version-specifier or extras-marker character. -/
theorem C9_no_version_constraints :
    install_requires.map (fun l => l.all isBareName) = some true := by
  decide

/-- C10: the `packages` argument of the `setup()` call is exactly the
result of `find_packages()` applied to no positional and no keyword
arguments, not a hard-coded list of package names. -/
theorem C10_packages_from_discovery :
    getKwarg setup_call "packages" = some (PyExpr.call "find_packages" [] []) := by
  rfl

end PatchClamp
